import Mathlib

/-!
Shallow embedding of the scribby browser transcription pipeline:
the audio decode/resample utilities, the whisper Web Worker
(model loader, transcription engine, message handler) and the
client-side TranscriptionService option handling.

Host-environment effects (the browser's audio decoder, the network
download performed by the transformers.js pipeline, the model's
inference output) enter as explicit parameters; everything the
repository's own code computes is translated directly from the source.
-/

namespace Scribby

/-! ## Audio decoding utilities -/

/-- A host-decoded audio buffer (Web Audio `AudioBuffer`):
`channelData c i` is sample `i` of channel `c`. -/
structure AudioBuffer where
  numberOfChannels : ℕ
  length : ℕ
  sampleRate : ℕ
  channelData : ℕ → ℕ → ℚ

/-- Mono PCM audio as handed to the model. -/
structure MonoAudio where
  length : ℕ
  sampleRate : ℕ
  data : ℕ → ℚ

/-- The downmix-to-mono stage of `decodeAudioData`:
stereo averages the two channels, mono passes channel 0 through,
and more than two channels accumulate `channelData[c][i] / numberOfChannels`. -/
def downmixData (b : AudioBuffer) : ℕ → ℚ :=
  if b.numberOfChannels = 2 then
    fun i => (b.channelData 0 i + b.channelData 1 i) / 2
  else if b.numberOfChannels = 1 then
    b.channelData 0
  else
    fun i =>
      Finset.sum (Finset.range b.numberOfChannels)
        (fun c => b.channelData c i / (b.numberOfChannels : ℚ))

/-- `Math.ceil(a / b)` on naturals, as computed for the
`OfflineAudioContext` length in `resampleAudio`. -/
def jsCeil (a b : ℕ) : ℕ :=
  (a + b - 1) / b

/-- The host exception raised by
`new OfflineAudioContext(1, 0, targetSampleRate)`: the Web Audio API
requires the frame count to be at least 1. -/
def offlineContextLengthError : String :=
  "The number of frames provided (0) is less than the minimum bound (1)."

/-- `resampleAudio(audioData, sourceSampleRate, targetSampleRate)`:
identity when the rates already match, otherwise an offline render
whose length is `Math.ceil(length * target / source)`.  Constructing
the `OfflineAudioContext` throws when that computed length is 0 (the
API's minimum is 1), so a zero-length input fails here.  The rendered
samples come from the host renderer `render`. -/
def resampleAudio (render : ℕ → ℚ) (a : MonoAudio) (target : ℕ) :
    Except String MonoAudio :=
  if a.sampleRate = target then .ok a
  else if jsCeil (a.length * target) a.sampleRate = 0 then
    .error offlineContextLengthError
  else
    .ok
      { length := jsCeil (a.length * target) a.sampleRate
        sampleRate := target
        data := render }

/-- `decodeAudioData(file)` from the audio utilities: the host decode
outcome is `hostDecode`; on success the buffer is downmixed to mono and
resampled to 16 kHz when its rate differs; any failure — the host
decode's or the resample pass's — is rethrown by the surrounding catch
as `Failed to decode audio: <cause>`. -/
def decodeAudioData (render : ℕ → ℚ) (hostDecode : Except String AudioBuffer) :
    Except String MonoAudio :=
  match hostDecode with
  | .error e => .error ("Failed to decode audio: " ++ e)
  | .ok b =>
    let audio : MonoAudio :=
      { length := b.length, sampleRate := b.sampleRate, data := downmixData b }
    if b.sampleRate ≠ 16000 then
      match resampleAudio render audio 16000 with
      | .error e => .error ("Failed to decode audio: " ++ e)
      | .ok m => .ok m
    else .ok audio

/-- Length of a successful decode, `none` on failure. -/
def decodedLength : Except String MonoAudio → Option ℕ
  | .ok m => some m.length
  | .error _ => none

/-- Sample rate of a successful decode, `none` on failure. -/
def decodedSampleRate : Except String MonoAudio → Option ℕ
  | .ok m => some m.sampleRate
  | .error _ => none

/-- Whether the decode succeeded. -/
def decodeSucceeded : Except String MonoAudio → Bool
  | .ok _ => true
  | .error _ => false

/-! ## Worker data model -/

/-- A timestamped transcript chunk. -/
structure Chunk where
  text : String
  start : ℚ
  stop : ℚ
deriving DecidableEq

/-- The raw model output, with possibly-absent fields
(`output.text`, `output.chunks`, `output.language`). -/
structure ModelOutput where
  text : Option String
  chunks : Option (List Chunk)
  language : Option String
deriving DecidableEq

/-- The assembled `TranscriptionResult` posted in the `complete` message. -/
structure TransResult where
  text : String
  chunks : List Chunk
  language : String
deriving DecidableEq

/-- Result assembly in `transcribe`:
`text: output.text || ''`, `chunks: output.chunks || []`,
`language: output.language || options.language || 'auto'`. -/
def mkResult (out : ModelOutput) (optLanguage : Option String) : TransResult :=
  { text :=
      match out.text with
      | some t => t
      | none => ""
    chunks :=
      match out.chunks with
      | some cs => cs
      | none => []
    language :=
      match out.language with
      | some l => l
      | none =>
        match optLanguage with
        | some l => l
        | none => "auto" }

/-- Messages the worker posts to the main thread
(`self.postMessage` payloads, keyed by their `type`/`stage`). -/
inductive Msg where
  | info (m : String)
  | loading (m : String)
  | initiate (file : String) (loaded total pct : ℕ)
  | dlProgress (file : String) (loaded total pct : ℕ)
  | ready (m : String)
  | transcribing (pct : ℕ)
  | complete (r : TransResult)
  | error (e : String)
  | unloaded
  | deviceInfo (d : String)
deriving DecidableEq

/-- A terminal event of a job: `complete` or `error`. -/
def Msg.isTerminal : Msg → Bool
  | .complete _ => true
  | .error _ => true
  | _ => false

/-- An `error` event. -/
def Msg.isError : Msg → Bool
  | .error _ => true
  | _ => false

/-- A `complete` event. -/
def Msg.isComplete : Msg → Bool
  | .complete _ => true
  | _ => false

/-- Number of terminal events in a trace. -/
def terminalCount (l : List Msg) : ℕ :=
  (l.filter Msg.isTerminal).length

/-- The reported `transcribing` percentages of a trace, in order. -/
def transcribingPcts (l : List Msg) : List ℕ :=
  l.filterMap fun m =>
    match m with
    | .transcribing p => some p
    | _ => none

/-- Mutable worker globals: `transcriber` (the loaded pipeline handle,
identified by the model name it was created for) and `isLoading`. -/
structure WorkerState where
  transcriber : Option String
  isLoading : Bool
deriving DecidableEq

/-- One `progress_callback` invocation during the model download. -/
structure DlEvent where
  statusIsProgress : Bool
  file : String
  loaded : ℕ
  total : ℕ
  pct : ℕ

/-- The message posted for one download-progress callback:
`type: progress` when `status === 'progress'`, else `initiate`. -/
def dlEventMsg (e : DlEvent) : Msg :=
  if e.statusIsProgress then .dlProgress e.file e.loaded e.total e.pct
  else .initiate e.file e.loaded e.total e.pct

/-- Host-determined outcomes of one `pipeline(...)` load:
the download/initialization outcome, the WebGPU warm-up inference
outcome, and the sequence of progress callbacks observed. -/
structure LoadParams where
  pipelineOutcome : Except String Unit
  warmupOutcome : Except String Unit
  downloadEvents : List DlEvent

/-- Default model name in `loadModel`. -/
def defaultWorkerModel : String :=
  "onnx-community/whisper-base"

/-- What the synchronous prefix of `loadModel` (everything before
`await pipeline(...)`) decides. -/
inductive LoadEntry where
  | early (h : Option String)
  | cached (h : String)
  | started

/-- Result of the synchronous prefix of `loadModel`. -/
structure EntryResult where
  entry : LoadEntry
  state : WorkerState
  msgs : List Msg
  downloads : ℕ

/-- Result of a full `loadModel` call. -/
structure LoadResult where
  state : WorkerState
  msgs : List Msg
  downloads : ℕ
  result : Except String (Option String)

/-- Result of the part of `loadModel` from `await pipeline(...)` on. -/
structure FinishResult where
  state : WorkerState
  msgs : List Msg
  result : Except String (Option String)

/-- Synchronous prefix of `loadModel(modelName, device)`:
if `isLoading`, post `info` and return the current `transcriber`;
if a transcriber exists, post `ready` and return it;
otherwise set `isLoading`, post `loading ...` and start the download. -/
def loadModelEntry (currentDevice : String) (modelName device : Option String)
    (s : WorkerState) : EntryResult :=
  let name := modelName.getD defaultWorkerModel
  let targetDevice := device.getD currentDevice
  if s.isLoading then
    ⟨.early s.transcriber, s, [.info ("Model is already loading...")], 0⟩
  else
    match s.transcriber with
    | some h => ⟨.cached h, s, [.ready ("Model already loaded")], 0⟩
    | none =>
      ⟨.started, { transcriber := s.transcriber, isLoading := true },
        [.loading ("Loading " ++ name ++ " for " ++ targetDevice.toUpper ++ "...")], 1⟩

/-- Remainder of `loadModel` after the download begins: on pipeline
success assign `transcriber`, clear `isLoading`, warm up on WebGPU,
post `ready` and return the handle; on failure clear `isLoading`,
post the `Failed to load model` error and rethrow. -/
def loadModelFinish (currentDevice : String) (modelName device : Option String)
    (p : LoadParams) (s : WorkerState) : FinishResult :=
  let name := modelName.getD defaultWorkerModel
  let targetDevice := device.getD currentDevice
  let dlMsgs := p.downloadEvents.map dlEventMsg
  match p.pipelineOutcome with
  | .error e =>
    ⟨{ transcriber := s.transcriber, isLoading := false },
      dlMsgs ++ [.error ("Failed to load model: " ++ e)], .error e⟩
  | .ok _ =>
    if targetDevice = "webgpu" then
      match p.warmupOutcome with
      | .ok _ =>
        ⟨{ transcriber := some name, isLoading := false },
          dlMsgs ++ [.loading ("Warming up model (WebGPU)..."),
            .ready ("Model loaded and ready")], .ok (some name)⟩
      | .error e =>
        ⟨{ transcriber := some name, isLoading := false },
          dlMsgs ++ [.loading ("Warming up model (WebGPU)..."),
            .error ("Failed to load model: " ++ e)], .error e⟩
    else
      ⟨{ transcriber := some name, isLoading := false },
        dlMsgs ++ [.ready ("Model loaded and ready")], .ok (some name)⟩

/-- Full `loadModel(modelName, device)` call. -/
def loadModel (currentDevice : String) (modelName device : Option String)
    (p : LoadParams) (s : WorkerState) : LoadResult :=
  let e := loadModelEntry currentDevice modelName device s
  match e.entry with
  | .early h => ⟨e.state, e.msgs, 0, .ok h⟩
  | .cached h => ⟨e.state, e.msgs, 0, .ok (some h)⟩
  | .started =>
    let f := loadModelFinish currentDevice modelName device p e.state
    ⟨f.state, e.msgs ++ f.msgs, 1, f.result⟩

/-! ## Transcription engine -/

/-- Options carried in a `transcribe` message (`data.options`). -/
structure Options where
  model : Option String
  device : Option String
  language : Option String
  translate : Bool
  timestamp : Option Bool

/-- `return_timestamps`: word-level or plain text. -/
inductive TsMode where
  | word
  | noTs
deriving DecidableEq

/-- The options object passed to the model call in `transcribe`. -/
structure TranscribeOpts where
  language : Option String
  task : String
  return_timestamps : TsMode
  chunk_length_s : ℕ
  stride_length_s : ℕ
deriving DecidableEq

/-- Construction of `transcribeOptions` inside `transcribe`:
`language` is `undefined` for `'auto'`, else lower-cased;
`task` honours the translate flag;
`return_timestamps` is `'word'` unless `timestamp` is literally `false`;
chunking constants 30 s / 5 s. -/
def mkTranscribeOptions (o : Options) : TranscribeOpts :=
  { language :=
      if o.language = some ("auto") then none else o.language.map String.toLower
    task := if o.translate then "translate" else "transcribe"
    return_timestamps := if o.timestamp ≠ some false then .word else .noTs
    chunk_length_s := 30
    stride_length_s := 5 }

/-- Outcome of a worker operation: final state, posted messages, and how
many underlying model downloads were started. -/
structure HandlerResult where
  state : WorkerState
  msgs : List Msg
  downloads : ℕ

/-- Result of the part of `transcribe` up to `await model(audioData, ...)`:
load the model (via `loadModel`!), post `transcribing 0`, and hand the
(possibly null) handle to the inference step. -/
structure StartResult where
  state : WorkerState
  msgs : List Msg
  downloads : ℕ
  handle : Except String (Option String)

/-- `transcribe` up to the inference call: `await loadModel(options.model
|| default, options.device)`; a load failure is caught and posted as
`Transcription failed: <cause>`; otherwise `transcribing 0` is posted. -/
def transcribeStart (currentDevice : String) (p : LoadParams) (o : Options)
    (s : WorkerState) : StartResult :=
  let lr := loadModel currentDevice (some (o.model.getD defaultWorkerModel))
    o.device p s
  match lr.result with
  | .error e =>
    ⟨lr.state, lr.msgs ++ [.error ("Transcription failed: " ++ e)], lr.downloads,
      .error e⟩
  | .ok h => ⟨lr.state, lr.msgs ++ [.transcribing 0], lr.downloads, .ok h⟩

/-- `transcribe` from the inference call on: a null handle raises the
`model is not a function` TypeError (caught and posted); an inference
failure is posted as `Transcription failed`; success posts
`transcribing 100` then `complete` with the assembled result. -/
def transcribeFinish (handle : Option String) (infer : Except String ModelOutput)
    (o : Options) : List Msg :=
  match handle with
  | none => [.error ("Transcription failed: " ++ "model is not a function")]
  | some _ =>
    match infer with
    | .error e => [.error ("Transcription failed: " ++ e)]
    | .ok out => [.transcribing 100, .complete (mkResult out o.language)]

/-- Full `transcribe(audioData, options)` call; `infer` is the host
model's inference outcome. -/
def transcribe (currentDevice : String) (p : LoadParams)
    (infer : Except String ModelOutput) (o : Options) (s : WorkerState) :
    HandlerResult :=
  let st := transcribeStart currentDevice p o s
  match st.handle with
  | .error _ => ⟨st.state, st.msgs, st.downloads⟩
  | .ok h => ⟨st.state, st.msgs ++ transcribeFinish h infer o, st.downloads⟩

/-! ## Worker message handler -/

/-- Messages the worker accepts from the main thread. -/
inductive InMsg where
  | load (model device : Option String)
  | transcribeReq (options : Options)
  | unload
  | checkDevice
  | unknown (t : String)

/-- The worker's `message` event handler. -/
def handleMessage (currentDevice : String) (p : LoadParams)
    (infer : Except String ModelOutput) (msg : InMsg) (s : WorkerState) :
    HandlerResult :=
  match msg with
  | .load m d =>
    let lr := loadModel currentDevice m d p s
    ⟨lr.state, lr.msgs, lr.downloads⟩
  | .transcribeReq o => transcribe currentDevice p infer o s
  | .unload => ⟨⟨none, false⟩, [.unloaded], 0⟩
  | .checkDevice => ⟨s, [.deviceInfo currentDevice], 0⟩
  | .unknown t => ⟨s, [.error ("Unknown message type: " ++ t)], 0⟩

/-! ## Interleavings -/

/-- A load racing an in-flight load: the first call runs its
synchronous prefix, then (while it awaits the pipeline) the second call
runs in full, then the first call's remainder runs. -/
structure LoadRaceResult where
  firstResult : Except String (Option String)
  secondResult : Except String (Option String)
  downloads : ℕ
  finalState : WorkerState

/-- Two `loadModel` calls for the same spec, the second arriving while
the first is in flight. -/
def loadRace (currentDevice : String) (modelName device : Option String)
    (p : LoadParams) (s0 : WorkerState) : LoadRaceResult :=
  let e1 := loadModelEntry currentDevice modelName device s0
  match e1.entry with
  | .early h =>
    let second := loadModel currentDevice modelName device p e1.state
    ⟨.ok h, second.result, e1.downloads + second.downloads, second.state⟩
  | .cached h =>
    let second := loadModel currentDevice modelName device p e1.state
    ⟨.ok (some h), second.result, e1.downloads + second.downloads, second.state⟩
  | .started =>
    let second := loadModel currentDevice modelName device p e1.state
    let f1 := loadModelFinish currentDevice modelName device p second.state
    ⟨f1.result, second.result, e1.downloads + second.downloads, f1.state⟩

/-- Two `transcribe` messages interleaved: the second is dispatched
while the first job awaits its inference; the combined event trace and
the handle each job's inference ran against. -/
structure TranscribeRaceResult where
  msgs : List Msg
  firstHandle : Except String (Option String)
  secondHandle : Except String (Option String)

/-- Interleaving of two `transcribe` calls on one worker: start of job 1,
start of job 2 (while job 1 awaits inference), finish of job 1, finish of
job 2. -/
def transcribeRace (currentDevice : String) (p1 p2 : LoadParams)
    (inf1 inf2 : Except String ModelOutput) (o1 o2 : Options)
    (s0 : WorkerState) : TranscribeRaceResult :=
  let st1 := transcribeStart currentDevice p1 o1 s0
  let st2 := transcribeStart currentDevice p2 o2 st1.state
  let f1 :=
    match st1.handle with
    | .error _ => []
    | .ok h => transcribeFinish h inf1 o1
  let f2 :=
    match st2.handle with
    | .error _ => []
    | .ok h => transcribeFinish h inf2 o2
  ⟨st1.msgs ++ st2.msgs ++ f1 ++ f2, st1.handle, st2.handle⟩

/-! ## Client-side service -/

/-- Caller-facing options of `TranscriptionService.transcribeAudio`. -/
structure ClientOptions where
  model : Option String
  language : Option String
  translate : Option Bool
  timestamp : Option Bool

/-- Default client model (`'Xenova/whisper-tiny.en'`). -/
def defaultClientModel : String :=
  "Xenova/whisper-tiny.en"

/-- The options object `transcribeAudio` posts to the worker:
`model: options.model || env default || 'Xenova/whisper-tiny.en'`,
`language: options.language || 'auto'`, `translate: options.translate ||
false`, `timestamp: options.timestamp !== false`. -/
def clientTranscribeOptions (envDefaultModel : Option String)
    (o : ClientOptions) : Options :=
  { model := some (o.model.getD (envDefaultModel.getD defaultClientModel))
    device := none
    language := some (o.language.getD ("auto"))
    translate := o.translate.getD false
    timestamp := some (decide (o.timestamp ≠ some false)) }

/-! ## Concrete scenario inputs -/

/-- A load whose download and warm-up both succeed, with no progress
callbacks recorded. -/
def pOk : LoadParams :=
  ⟨.ok (), .ok (), []⟩

/-- A load whose download fails with a network error. -/
def pNetErr : LoadParams :=
  ⟨.error ("network error"), .ok (), []⟩

/-- A simple model output. -/
def outSimple : ModelOutput :=
  ⟨some ("hello"), none, some ("en")⟩

/-- Model output of the first racing job. -/
def outOne : ModelOutput :=
  ⟨some ("one"), none, none⟩

/-- Model output of the second racing job. -/
def outTwo : ModelOutput :=
  ⟨some ("two"), none, none⟩

/-- A transcribe message with every option omitted. -/
def defaultOptions : Options :=
  ⟨none, none, none, false, none⟩

/-- A worker state with the handle for model `"model-A"` loaded. -/
def stateA : WorkerState :=
  ⟨some ("model-A"), false⟩

/-- A worker state with a handle `"m"` loaded and no load in flight. -/
def stateM : WorkerState :=
  ⟨some ("m"), false⟩

/-- The empty worker state: nothing loaded, nothing loading. -/
def state0 : WorkerState :=
  ⟨none, false⟩

/-- A host buffer claiming one empty channel at 16 kHz. -/
def emptyHostBuffer : AudioBuffer :=
  ⟨1, 0, 16000, fun _ _ => 0⟩

/-! ## Helper lemmas -/

/-- `jsCeil` is the rational ceiling of the quotient. -/
theorem jsCeil_eq_ceil (a b : ℕ) (hb : 0 < b) :
    jsCeil a b = Nat.ceil ((a : ℚ) / (b : ℚ)) := by
  have hbq : (0 : ℚ) < (b : ℚ) := by exact_mod_cast hb
  rcases Nat.eq_zero_or_pos a with ha | ha
  · subst ha
    have h1 : jsCeil 0 b = 0 := by
      unfold jsCeil
      apply Nat.div_eq_of_lt
      omega
    rw [h1]
    simp
  · have key : jsCeil a b = (a - 1) / b + 1 := by
      unfold jsCeil
      have h2 : a + b - 1 = (a - 1) + b := by omega
      rw [h2, Nat.add_div_right _ hb]
    rw [key]
    symm
    apply le_antisymm
    · apply Nat.ceil_le.mpr
      rw [div_le_iff₀ hbq]
      have h5 : a ≤ ((a - 1) / b + 1) * b := by
        have h2 := Nat.div_add_mod (a - 1) b
        have h3 : (a - 1) % b < b := Nat.mod_lt _ hb
        have h4 : ((a - 1) / b + 1) * b = b * ((a - 1) / b) + b := by ring
        omega
      exact_mod_cast h5
    · rw [Nat.add_one_le_iff, Nat.lt_ceil, lt_div_iff₀ hbq]
      have h6 : (a - 1) / b * b ≤ a - 1 := Nat.div_mul_le_self _ _
      have h7 : (a - 1) / b * b < a := by omega
      exact_mod_cast h7

/-- Download-progress callbacks never post terminal events. -/
theorem dl_filter_terminal (l : List DlEvent) :
    (l.map dlEventMsg).filter Msg.isTerminal = [] := by
  induction l with
  | nil => rfl
  | cons e t ih =>
    by_cases he : e.statusIsProgress <;>
      simp [dlEventMsg, he, Msg.isTerminal, ih]

/-- Download-progress callbacks report no transcribing percentage. -/
theorem dl_pcts (l : List DlEvent) :
    transcribingPcts (l.map dlEventMsg) = [] := by
  induction l with
  | nil => rfl
  | cons e t ih =>
    by_cases he : e.statusIsProgress <;>
      simp [transcribingPcts, dlEventMsg, he] <;>
      simpa [transcribingPcts] using ih

/-- A trace made of a terminal-free prefix and a final terminal event
has exactly one terminal event, placed last. -/
theorem trace_props (pre : List Msg) (t : Msg)
    (hpre : pre.filter Msg.isTerminal = []) (ht : t.isTerminal = true) :
    terminalCount (pre ++ [t]) = 1 ∧
    (pre ++ [t]).dropLast.filter Msg.isTerminal = [] ∧
    ((pre ++ [t]).getLast?.map Msg.isTerminal) = some true := by
  refine ⟨?_, ?_, ?_⟩
  · simp [terminalCount, List.filter_append, hpre, ht]
  · rw [List.dropLast_concat]
    exact hpre
  · rw [List.getLast?_concat]
    simp [ht]

/-- `loadModel` while a load is in flight: no download, no state change,
the current (possibly null) transcriber is returned. -/
theorem loadModel_early (cd : String) (mn dev : Option String) (p : LoadParams)
    (s : WorkerState) (hl : s.isLoading = true) :
    loadModel cd mn dev p s =
      ⟨s, [.info ("Model is already loading...")], 0, .ok s.transcriber⟩ := by
  simp [loadModel, loadModelEntry, hl]

/-- `loadModel` with a transcriber already cached: no download, the
existing handle is returned whatever model was requested. -/
theorem loadModel_cached (cd : String) (mn dev : Option String) (p : LoadParams)
    (s : WorkerState) (h : String) (hl : s.isLoading = false)
    (ht : s.transcriber = some h) :
    loadModel cd mn dev p s =
      ⟨s, [.ready ("Model already loaded")], 0, .ok (some h)⟩ := by
  simp [loadModel, loadModelEntry, hl, ht]

/-- `loadModel` from the idle empty state starts exactly one download
and continues with `loadModelFinish`. -/
theorem loadModel_fresh (cd : String) (mn dev : Option String) (p : LoadParams)
    (s : WorkerState) (hl : s.isLoading = false) (ht : s.transcriber = none) :
    loadModel cd mn dev p s =
      ⟨(loadModelFinish cd mn dev p ⟨none, true⟩).state,
        [.loading ("Loading " ++ mn.getD defaultWorkerModel ++ " for " ++
          (dev.getD cd).toUpper ++ "...")] ++
          (loadModelFinish cd mn dev p ⟨none, true⟩).msgs,
        1, (loadModelFinish cd mn dev p ⟨none, true⟩).result⟩ := by
  simp [loadModel, loadModelEntry, hl, ht]

/-- On a successful pipeline load and warm-up, `loadModelFinish` stores
the handle for the requested model, returns it, and posts only
nonterminal events with no transcribing percentages. -/
theorem loadModelFinish_ok (cd : String) (mn dev : Option String)
    (p : LoadParams) (s : WorkerState)
    (hp : p.pipelineOutcome = .ok ()) (hw : p.warmupOutcome = .ok ()) :
    (loadModelFinish cd mn dev p s).state =
      ⟨some (mn.getD defaultWorkerModel), false⟩ ∧
    (loadModelFinish cd mn dev p s).result =
      .ok (some (mn.getD defaultWorkerModel)) ∧
    (loadModelFinish cd mn dev p s).msgs.filter Msg.isTerminal = [] ∧
    transcribingPcts (loadModelFinish cd mn dev p s).msgs = [] := by
  have hdl : ∀ a ∈ p.downloadEvents,
      (match dlEventMsg a with
        | Msg.transcribing q => some q
        | _ => none) = (none : Option ℕ) := by
    intro a _
    by_cases ha : a.statusIsProgress <;> simp [dlEventMsg, ha]
  by_cases hgpu : dev.getD cd = "webgpu" <;>
    simp [loadModelFinish, hp, hw, hgpu, List.filter_append,
      dl_filter_terminal, Msg.isTerminal, transcribingPcts,
      List.filterMap_append, dl_pcts] <;>
    exact hdl

/-- `transcribingPcts` distributes over concatenation. -/
theorem pcts_append (a b : List Msg) :
    transcribingPcts (a ++ b) = transcribingPcts a ++ transcribingPcts b := by
  simp [transcribingPcts]

/-- Trace properties of a terminal-free prefix followed by
`transcribeFinish`: exactly one terminal event, placed last, with
nondecreasing transcribing percentages; on inference success the
percentages are `[0, 100]` and the last event carries the result. -/
theorem finish_shape (pre : List Msg) (h : Option String)
    (infer : Except String ModelOutput) (o : Options)
    (hft : pre.filter Msg.isTerminal = [])
    (hfp : transcribingPcts pre = [0]) :
    terminalCount (pre ++ transcribeFinish h infer o) = 1 ∧
    (pre ++ transcribeFinish h infer o).dropLast.filter Msg.isTerminal = [] ∧
    ((pre ++ transcribeFinish h infer o).getLast?.map Msg.isTerminal) =
      some true ∧
    List.Chain' (fun a b => a ≤ b)
      (transcribingPcts (pre ++ transcribeFinish h infer o)) ∧
    (∀ m out, h = some m → infer = .ok out →
      transcribingPcts (pre ++ transcribeFinish h infer o) = [0, 100] ∧
      (pre ++ transcribeFinish h infer o).getLast? =
        some (.complete (mkResult out o.language))) := by
  rcases h with _ | m
  · have tp := trace_props pre
      (.error ("Transcription failed: " ++ "model is not a function")) hft rfl
    refine ⟨tp.1, tp.2.1, tp.2.2, ?_, ?_⟩
    · rw [show transcribeFinish none infer o =
        [.error ("Transcription failed: " ++ "model is not a function")]
        from rfl]
      rw [pcts_append, hfp]
      simp [transcribingPcts]
    · intro m out hm
      simp at hm
  · rcases infer with e | out
    · have tp := trace_props pre (.error ("Transcription failed: " ++ e))
        hft rfl
      refine ⟨tp.1, tp.2.1, tp.2.2, ?_, ?_⟩
      · rw [show transcribeFinish (some m) (.error e) o =
          [.error ("Transcription failed: " ++ e)] from rfl]
        rw [pcts_append, hfp]
        simp [transcribingPcts]
      · intro m1 out hm hout
        simp at hout
    · have hfin : transcribeFinish (some m) (.ok out) o =
        [.transcribing 100, .complete (mkResult out o.language)] := rfl
      have hpre2 : (pre ++ [Msg.transcribing 100]).filter Msg.isTerminal = [] := by
        simp [List.filter_append, hft, Msg.isTerminal]
      have tp := trace_props (pre ++ [Msg.transcribing 100])
        (.complete (mkResult out o.language)) hpre2 rfl
      have hassoc : pre ++ transcribeFinish (some m) (.ok out) o =
          (pre ++ [Msg.transcribing 100]) ++ [Msg.complete (mkResult out o.language)] := by
        rw [hfin]
        simp
      have hpcts : transcribingPcts (pre ++ transcribeFinish (some m) (.ok out) o) =
          [0, 100] := by
        rw [hfin, pcts_append, hfp]
        simp [transcribingPcts]
      refine ⟨?_, ?_, ?_, ?_, ?_⟩
      · rw [hassoc]
        exact tp.1
      · rw [hassoc]
        exact tp.2.1
      · rw [hassoc]
        exact tp.2.2
      · rw [hpcts]
        exact List.chain'_cons.mpr (And.intro (by norm_num) (List.chain'_singleton _))
      · intro m1 out1 hm hout
        have hout1 : out1 = out := by
          injection hout with he
          exact he.symm
        subst hout1
        refine ⟨hpcts, ?_⟩
        rw [hassoc, List.getLast?_concat]

/-! ## Claim theorems -/

/-- **C5** (confirmed): for a nonempty host-decoded buffer (the spec's
`length > 0` invariant) at native rate `R ≠ 16000`, decode resamples to
exactly 16 kHz with output length `⌈length * 16000 / R⌉`; a mono buffer
already at 16 kHz is returned unchanged with no resample pass. -/
theorem c5_resample_length (render : ℕ → ℚ) (b : AudioBuffer)
    (hpos : 0 < b.sampleRate) (hlen : 0 < b.length) :
    (b.sampleRate ≠ 16000 →
      decodedSampleRate (decodeAudioData render (.ok b)) = some 16000 ∧
      decodedLength (decodeAudioData render (.ok b)) =
        some (Nat.ceil ((b.length * 16000 : ℚ) / (b.sampleRate : ℚ)))) ∧
    (b.sampleRate = 16000 → b.numberOfChannels = 1 →
      decodeAudioData render (.ok b) = .ok ⟨b.length, 16000, b.channelData 0⟩) := by
  constructor
  · intro hne
    have hcne : jsCeil (b.length * 16000) b.sampleRate ≠ 0 := by
      have h1 : 1 ≤ (b.length * 16000 + b.sampleRate - 1) / b.sampleRate :=
        (Nat.le_div_iff_mul_le hpos).mpr (by omega)
      unfold jsCeil
      omega
    have hres : (resampleAudio render
        ⟨b.length, b.sampleRate, downmixData b⟩ 16000) =
        .ok ⟨jsCeil (b.length * 16000) b.sampleRate, 16000, render⟩ := by
      simp [resampleAudio, hne, hcne]
    constructor
    · simp [decodeAudioData, hne, hres, decodedSampleRate]
    · simp only [decodeAudioData, hne, ne_eq, not_false_eq_true, if_true,
        hres, decodedLength]
      rw [jsCeil_eq_ceil _ _ hpos]
      norm_num
  · intro h16 hch
    have hdm : downmixData b = b.channelData 0 := by
      simp [downmixData, hch]
    simp [decodeAudioData, h16, hdm]

/-- Witness for C5 at a 3-sample buffer with native rate 8000 Hz. -/
theorem c5_witness :
    decodedSampleRate (decodeAudioData (fun _ => 0)
      (.ok ⟨1, 3, 8000, fun _ _ => 0⟩)) = some 16000 ∧
    decodedLength (decodeAudioData (fun _ => 0)
      (.ok ⟨1, 3, 8000, fun _ _ => 0⟩)) =
      some (Nat.ceil ((((3 : ℕ) : ℚ) * 16000) / ((8000 : ℕ) : ℚ))) :=
  (c5_resample_length (fun _ => 0) ⟨1, 3, 8000, fun _ _ => 0⟩
    (by decide) (by decide)).1 (by decide)

/-- **C6** (confirmed): with more than one channel, the downmix stage
produces the per-sample average of all channels, and the decoded mono
buffer keeps the per-channel length. -/
theorem c6_downmix_average (render : ℕ → ℚ) (b : AudioBuffer) (i : ℕ)
    (hc : 1 < b.numberOfChannels) (hr : b.sampleRate = 16000) :
    downmixData b i =
      (Finset.sum (Finset.range b.numberOfChannels)
        (fun c => b.channelData c i)) / (b.numberOfChannels : ℚ) ∧
    decodedLength (decodeAudioData render (.ok b)) = some b.length := by
  constructor
  · by_cases h2 : b.numberOfChannels = 2
    · rw [h2]
      simp [downmixData, h2, Finset.sum_range_succ]
    · have h1 : b.numberOfChannels ≠ 1 := by omega
      simp [downmixData, h2, h1, Finset.sum_div]
  · simp [decodeAudioData, hr, decodedLength]

/-- Witness for C6 on a 2-channel buffer with samples 1 and 3. -/
theorem c6_witness :
    downmixData ⟨2, 2, 16000, fun c _ => if c = 0 then 1 else 3⟩ 0 =
      (Finset.sum (Finset.range 2)
        (fun c => (fun (c : ℕ) (_ : ℕ) => if c = 0 then (1 : ℚ) else 3) c 0)) /
        ((2 : ℕ) : ℚ) ∧
    decodedLength (decodeAudioData (fun _ => 0)
      (.ok ⟨2, 2, 16000, fun c _ => if c = 0 then 1 else 3⟩)) = some 2 :=
  c6_downmix_average (fun _ => 0)
    ⟨2, 2, 16000, fun c _ => if c = 0 then 1 else 3⟩ 0
    (by decide) (by decide)

/-- **C7** counterexample: a host decode that succeeds with a
zero-length buffer is passed through as a zero-length success — the
code performs no emptiness check of its own. -/
theorem c7_empty_decode_cex :
    decodeSucceeded (decodeAudioData (fun _ => 0) (.ok emptyHostBuffer)) = true ∧
    decodedLength (decodeAudioData (fun _ => 0) (.ok emptyHostBuffer)) = some 0 :=
  ⟨rfl, rfl⟩

/-- **C7** (corrected): every failure — the host decode's, or the
resample pass's own `OfflineAudioContext` rejection — is rethrown as a
`Failed to decode audio` error carrying the cause, and no buffer is
returned then; but decode itself never checks for emptiness: a
zero-length host buffer already at 16 kHz passes straight through as a
zero-length success, while at any other rate the zero-length case fails
only because the host API refuses a zero-length offline render. -/
theorem c7_decode_error_amended (render : ℕ → ℚ) (e : String)
    (b0 b1 : AudioBuffer)
    (hb0len : b0.length = 0) (hb0rate : b0.sampleRate = 16000)
    (hb1len : b1.length = 0) (hb1rate : b1.sampleRate ≠ 16000)
    (hb1pos : 0 < b1.sampleRate) :
    decodeAudioData render (.error e) =
      .error ("Failed to decode audio: " ++ e) ∧
    decodedLength (decodeAudioData render (.ok b0)) = some 0 ∧
    decodeAudioData render (.ok b1) =
      .error ("Failed to decode audio: " ++ offlineContextLengthError) := by
  refine ⟨rfl, ?_, ?_⟩
  · simp [decodeAudioData, hb0rate, decodedLength, hb0len]
  · have hc : jsCeil (b1.length * 16000) b1.sampleRate = 0 := by
      unfold jsCeil
      apply Nat.div_eq_of_lt
      omega
    simp [decodeAudioData, hb1rate, resampleAudio, hc]

/-- Witness for C7 at a concrete failure cause, an empty 16 kHz buffer
(empty success), and an empty 44100 Hz buffer (host-rejected render). -/
theorem c7_witness :
    decodeAudioData (fun _ => 0) (.error ("bad codec")) =
      .error ("Failed to decode audio: " ++ "bad codec") ∧
    decodedLength (decodeAudioData (fun _ => 0) (.ok emptyHostBuffer)) =
      some 0 ∧
    decodeAudioData (fun _ => 0) (.ok ⟨1, 0, 44100, fun _ _ => 0⟩) =
      .error ("Failed to decode audio: " ++ offlineContextLengthError) :=
  c7_decode_error_amended (fun _ => 0) ("bad codec") emptyHostBuffer
    ⟨1, 0, 44100, fun _ _ => 0⟩ (by decide) (by decide) (by decide)
    (by decide) (by decide)

/-- **C1** counterexample: with a load of the default spec in flight,
a second `loadModel` call returns `null` (the not-yet-assigned
`transcriber`), not the handle the in-flight load later produces — the
two callers do not end up with the same loaded model. -/
theorem c1_null_attach_cex :
    (loadRace "wasm" none none pOk state0).secondResult = .ok none ∧
    (loadRace "wasm" none none pOk state0).firstResult =
      .ok (some defaultWorkerModel) ∧
    (Except.ok (none : Option String) : Except String (Option String)) ≠
      .ok (some defaultWorkerModel) := by
  refine ⟨rfl, rfl, ?_⟩
  simp

/-- **C1** (corrected): a `loadModel` call racing an in-flight load of
the same spec starts no second download (exactly one download happens),
but it returns the current `transcriber` — still `null` while the load
is in flight — rather than attaching to the in-flight load, whose
handle only the first caller receives. -/
theorem c1_inflight_dedup_amended (cd : String) (mn dev : Option String)
    (p : LoadParams) (s0 : WorkerState)
    (ht : s0.transcriber = none) (hl : s0.isLoading = false)
    (hp : p.pipelineOutcome = .ok ()) (hw : p.warmupOutcome = .ok ()) :
    (loadRace cd mn dev p s0).downloads = 1 ∧
    (loadRace cd mn dev p s0).secondResult = .ok none ∧
    (loadRace cd mn dev p s0).firstResult =
      .ok (some (mn.getD defaultWorkerModel)) ∧
    (loadRace cd mn dev p s0).finalState.transcriber =
      some (mn.getD defaultWorkerModel) := by
  by_cases hgpu : dev.getD cd = "webgpu" <;>
    simp [loadRace, loadModel, loadModelEntry, loadModelFinish,
      hl, ht, hp, hw, hgpu]

/-- Witness for C1 on the empty worker state with a successful load. -/
theorem c1_witness :
    (loadRace "wasm" none none pOk state0).downloads = 1 ∧
    (loadRace "wasm" none none pOk state0).secondResult = .ok none ∧
    (loadRace "wasm" none none pOk state0).firstResult =
      .ok (some defaultWorkerModel) ∧
    (loadRace "wasm" none none pOk state0).finalState.transcriber =
      some defaultWorkerModel :=
  c1_inflight_dedup_amended "wasm" none none pOk state0 rfl rfl rfl rfl

/-- **C2** counterexample: `transcribe` on a worker with no model loaded
performs one full model download as part of the call — inference is not
gated on a previously loaded model. -/
theorem c2_download_in_transcribe_cex :
    (transcribe "wasm" pOk (.ok outSimple) defaultOptions state0).downloads = 1 ∧
    (1 : ℕ) ≠ 0 :=
  ⟨rfl, by decide⟩

/-- **C2** (corrected): `transcribe` itself invokes `loadModel` first;
with a model already loaded it performs no download and reuses the
handle, but with no model loaded it triggers the load itself. -/
theorem c2_transcribe_loads_amended (cd : String) (p : LoadParams)
    (infer : Except String ModelOutput) (o : Options) (s : WorkerState) :
    (∀ m, s.transcriber = some m → s.isLoading = false →
      (transcribe cd p infer o s).downloads = 0) ∧
    (s.transcriber = none → s.isLoading = false →
      (transcribe cd p infer o s).downloads = 1) := by
  constructor
  · intro m hm hl
    simp [transcribe, transcribeStart,
      loadModel_cached cd (some (o.model.getD defaultWorkerModel))
        o.device p s m hl hm]
  · intro ht hl
    rcases hres : (loadModelFinish cd (some (o.model.getD defaultWorkerModel))
        o.device p ⟨none, true⟩).result with e | h <;>
      simp [transcribe, transcribeStart,
        loadModel_fresh cd (some (o.model.getD defaultWorkerModel))
          o.device p s hl ht, hres]

/-- Witness for C2: a loaded worker downloads nothing, an empty worker
downloads once. -/
theorem c2_witness :
    (transcribe "wasm" pOk (.ok outSimple) defaultOptions stateM).downloads = 0 ∧
    (transcribe "wasm" pOk (.ok outSimple) defaultOptions state0).downloads = 1 :=
  ⟨(c2_transcribe_loads_amended "wasm" pOk (.ok outSimple) defaultOptions
      stateM).1 ("m") rfl rfl,
   (c2_transcribe_loads_amended "wasm" pOk (.ok outSimple) defaultOptions
      state0).2 rfl rfl⟩

/-- **C8** counterexample: with the handle for `model-A` loaded, a load
request for `model-B` returns the stale `model-A` handle and leaves it
in place — the handle is reused even though the spec does not match. -/
theorem c8_stale_handle_cex :
    (loadModel "wasm" (some ("model-B")) none pOk stateA).result =
      .ok (some ("model-A")) ∧
    (loadModel "wasm" (some ("model-B")) none pOk stateA).state.transcriber =
      some ("model-A") ∧
    ("model-A" : String) ≠ "model-B" :=
  ⟨rfl, rfl, by decide⟩

/-- **C8** (corrected): while a model is loaded, any load request —
whatever spec it names — reuses the existing handle with no download;
replacement happens only through explicit unload-then-load, and the
sequence load(A), unload, load(B) does load and return B's handle. -/
theorem c8_unload_reload_amended (cd : String) (A B dev : Option String)
    (p1 p2 : LoadParams) (inf : Except String ModelOutput)
    (s : WorkerState) (h : String)
    (hs : s.transcriber = some h) (hl : s.isLoading = false)
    (hp2 : p2.pipelineOutcome = .ok ()) (hw2 : p2.warmupOutcome = .ok ()) :
    (loadModel cd B dev p2 s).result = .ok (some h) ∧
    (loadModel cd B dev p2 s).downloads = 0 ∧
    (loadModel cd B dev p2
        (handleMessage cd p1 inf .unload
          (loadModel cd A dev p1 state0).state).state).state.transcriber =
      some (B.getD defaultWorkerModel) ∧
    (loadModel cd B dev p2
        (handleMessage cd p1 inf .unload
          (loadModel cd A dev p1 state0).state).state).result =
      .ok (some (B.getD defaultWorkerModel)) := by
  have hu : (handleMessage cd p1 inf .unload
      (loadModel cd A dev p1 state0).state).state = ⟨none, false⟩ := rfl
  refine ⟨?_, ?_, ?_, ?_⟩
  · rw [loadModel_cached cd B dev p2 s h hl hs]
  · rw [loadModel_cached cd B dev p2 s h hl hs]
  · rw [hu, loadModel_fresh cd B dev p2 ⟨none, false⟩ rfl rfl]
    rw [show (⟨(loadModelFinish cd B dev p2 ⟨none, true⟩).state,
      [.loading ("Loading " ++ B.getD defaultWorkerModel ++ " for " ++
        (dev.getD cd).toUpper ++ "...")] ++
        (loadModelFinish cd B dev p2 ⟨none, true⟩).msgs,
      1, (loadModelFinish cd B dev p2 ⟨none, true⟩).result⟩ :
        LoadResult).state = (loadModelFinish cd B dev p2 ⟨none, true⟩).state
      from rfl]
    rw [(loadModelFinish_ok cd B dev p2 ⟨none, true⟩ hp2 hw2).1]
  · rw [hu, loadModel_fresh cd B dev p2 ⟨none, false⟩ rfl rfl]
    exact (loadModelFinish_ok cd B dev p2 ⟨none, true⟩ hp2 hw2).2.1

/-- Witness for C8: load `model-A`, unload, load `model-B`; and a
loaded worker (`m`) answers a `model-B` request with `m`'s handle. -/
theorem c8_witness :
    (loadModel "wasm" (some ("model-B")) none pOk stateM).result =
      .ok (some ("m")) ∧
    (loadModel "wasm" (some ("model-B")) none pOk stateM).downloads = 0 ∧
    (loadModel "wasm" (some ("model-B")) none pOk
        (handleMessage "wasm" pOk (.ok outSimple) .unload
          (loadModel "wasm" (some ("model-A")) none pOk
            state0).state).state).state.transcriber = some ("model-B") ∧
    (loadModel "wasm" (some ("model-B")) none pOk
        (handleMessage "wasm" pOk (.ok outSimple) .unload
          (loadModel "wasm" (some ("model-A")) none pOk
            state0).state).state).result = .ok (some ("model-B")) :=
  c8_unload_reload_amended "wasm" (some ("model-A")) (some ("model-B")) none
    pOk pOk (.ok outSimple) stateM ("m") rfl rfl rfl rfl

/-- **C9** (confirmed): when the caller omits the timestamp option, the
client sends `timestamp: true` and the worker requests word-level
timestamps; plain text (`return_timestamps: false`) is produced exactly
when the caller passes `timestamp: false` explicitly. -/
theorem c9_timestamp_default (env : Option String) (o : ClientOptions) :
    (o.timestamp = none →
      (clientTranscribeOptions env o).timestamp = some true ∧
      (mkTranscribeOptions (clientTranscribeOptions env o)).return_timestamps =
        .word) ∧
    ((mkTranscribeOptions (clientTranscribeOptions env o)).return_timestamps =
        .noTs ↔ o.timestamp = some false) := by
  rcases o with ⟨m, l, tr, ts⟩
  rcases ts with _ | b
  · exact ⟨fun _ => ⟨rfl, rfl⟩, by simp [clientTranscribeOptions, mkTranscribeOptions]⟩
  · rcases b <;> simp [clientTranscribeOptions, mkTranscribeOptions]

/-- Witness for C9: every option omitted yields word-level timestamps. -/
theorem c9_witness :
    (clientTranscribeOptions none ⟨none, none, none, none⟩).timestamp =
      some true ∧
    (mkTranscribeOptions
      (clientTranscribeOptions none ⟨none, none, none, none⟩)).return_timestamps =
      .word :=
  (c9_timestamp_default none ⟨none, none, none, none⟩).1 rfl

/-- **C10** (confirmed): the `complete` event of a successful job
carries a result whose `text` defaults to `""`, whose `chunks` default
to `[]`, and whose `language` is the model's language when present,
else the caller's language option, else the literal `"auto"`. -/
theorem c10_result_fields (cd : String) (p : LoadParams) (out : ModelOutput)
    (o : Options) (s : WorkerState) (m : String)
    (hs : s.transcriber = some m) (hl : s.isLoading = false) :
    (transcribe cd p (.ok out) o s).msgs.getLast? =
      some (.complete
        { text :=
            match out.text with
            | some t => t
            | none => ""
          chunks :=
            match out.chunks with
            | some cs => cs
            | none => []
          language :=
            match out.language with
            | some l => l
            | none =>
              match o.language with
              | some l => l
              | none => "auto" }) ∧
    (out.language = none → o.language = some ("auto") →
      (mkResult out o.language).language = "auto") := by
  constructor
  · simp [transcribe, transcribeStart,
      loadModel_cached cd (some (o.model.getD defaultWorkerModel))
        o.device p s m hl hs,
      transcribeFinish, mkResult]
  · intro h1 h2
    simp [mkResult, h1, h2]

/-- Witness for C10 on a model output missing every field, with the
caller-supplied language `"auto"` — the reported language is `"auto"`. -/
theorem c10_witness :
    (transcribe "wasm" pOk (.ok ⟨none, none, none⟩)
        ⟨none, none, some ("auto"), false, none⟩ stateM).msgs.getLast? =
      some (.complete { text := "", chunks := [], language := "auto" }) ∧
    (mkResult ⟨none, none, none⟩ (some ("auto"))).language = "auto" := by
  have h := c10_result_fields "wasm" pOk ⟨none, none, none⟩
    ⟨none, none, some ("auto"), false, none⟩ stateM ("m") rfl rfl
  exact ⟨h.1, h.2 rfl rfl⟩

/-- **C3** counterexample: with a model loaded, a second `transcribe`
message dispatched while the first job awaits its inference is simply
processed — both inferences run against the same handle, no busy error
is emitted, the second job's events begin before the first job's
terminal event, and both results are delivered. -/
theorem c3_no_busy_rejection_cex :
    (transcribeRace "wasm" pOk pOk (.ok outOne) (.ok outTwo)
      defaultOptions defaultOptions stateM).firstHandle = .ok (some ("m")) ∧
    (transcribeRace "wasm" pOk pOk (.ok outOne) (.ok outTwo)
      defaultOptions defaultOptions stateM).secondHandle = .ok (some ("m")) ∧
    (transcribeRace "wasm" pOk pOk (.ok outOne) (.ok outTwo)
      defaultOptions defaultOptions stateM).msgs =
      [.ready ("Model already loaded"), .transcribing 0,
       .ready ("Model already loaded"), .transcribing 0,
       .transcribing 100, .complete (mkResult outOne none),
       .transcribing 100, .complete (mkResult outTwo none)] ∧
    (transcribeRace "wasm" pOk pOk (.ok outOne) (.ok outTwo)
      defaultOptions defaultOptions stateM).msgs.filter Msg.isError = [] :=
  ⟨rfl, rfl, rfl, rfl⟩

/-- **C3** (corrected): the worker applies no busy policy at all — a
`transcribe` message received while a job is active is neither rejected
with a busy error nor queued behind the active job; it runs immediately
against the same non-reentrant model handle, and each job's `complete`
event still carries its own result. -/
theorem c3_interleaved_amended (cd : String) (p1 p2 : LoadParams)
    (out1 out2 : ModelOutput) (o1 o2 : Options) (s0 : WorkerState)
    (m : String) (hs : s0.transcriber = some m) (hl : s0.isLoading = false) :
    (transcribeRace cd p1 p2 (.ok out1) (.ok out2) o1 o2 s0).firstHandle =
      .ok (some m) ∧
    (transcribeRace cd p1 p2 (.ok out1) (.ok out2) o1 o2 s0).secondHandle =
      .ok (some m) ∧
    (transcribeRace cd p1 p2 (.ok out1) (.ok out2) o1 o2 s0).msgs.filter
      Msg.isError = [] ∧
    (transcribeRace cd p1 p2 (.ok out1) (.ok out2) o1 o2 s0).msgs.filter
      Msg.isComplete =
      [.complete (mkResult out1 o1.language),
       .complete (mkResult out2 o2.language)] := by
  have hload1 := loadModel_cached cd (some (o1.model.getD defaultWorkerModel))
    o1.device p1 s0 m hl hs
  have hload2 := loadModel_cached cd (some (o2.model.getD defaultWorkerModel))
    o2.device p2 s0 m hl hs
  refine ⟨?_, ?_, ?_, ?_⟩ <;>
    simp [transcribeRace, transcribeStart, hload1, hload2,
      transcribeFinish, Msg.isError, Msg.isComplete]

/-- Witness for C3's amended statement at concrete jobs `one`/`two`. -/
theorem c3_witness :
    (transcribeRace "wasm" pOk pOk (.ok outTwo) (.ok outOne)
      defaultOptions defaultOptions stateM).firstHandle = .ok (some ("m")) ∧
    (transcribeRace "wasm" pOk pOk (.ok outTwo) (.ok outOne)
      defaultOptions defaultOptions stateM).secondHandle = .ok (some ("m")) ∧
    (transcribeRace "wasm" pOk pOk (.ok outTwo) (.ok outOne)
      defaultOptions defaultOptions stateM).msgs.filter Msg.isError = [] ∧
    (transcribeRace "wasm" pOk pOk (.ok outTwo) (.ok outOne)
      defaultOptions defaultOptions stateM).msgs.filter Msg.isComplete =
      [.complete (mkResult outTwo none), .complete (mkResult outOne none)] :=
  c3_interleaved_amended "wasm" pOk pOk outTwo outOne
    defaultOptions defaultOptions stateM ("m") rfl rfl

/-- **C4** counterexample: when the model load inside `transcribe`
fails, the worker emits two `error` events for the job (the loader's
and the engine's), so the terminal event is neither unique nor is every
`error` event last. -/
theorem c4_double_error_cex :
    terminalCount (transcribe "wasm" pNetErr (.ok outSimple) defaultOptions
      state0).msgs = 2 ∧
    (transcribe "wasm" pNetErr (.ok outSimple) defaultOptions
      state0).msgs.dropLast.filter Msg.isError ≠ [] := by
  refine ⟨rfl, ?_⟩
  decide

/-- **C4** (corrected): provided the model load itself succeeds, every
`transcribe` run emits zero or more nonterminal events followed by
exactly one terminal `complete` or `error` event, which is last;
transcribing percentages are nondecreasing, and on a successful
inference they are exactly `[0, 100]` with the `complete` event last.
When the load fails inside `transcribe`, however, two error events are
emitted (see the counterexample), so the claim's "exactly one terminal
event" only holds on runs whose load succeeds. -/
theorem c4_progress_order_amended (cd : String) (p : LoadParams)
    (infer : Except String ModelOutput) (o : Options) (s : WorkerState)
    (hp : p.pipelineOutcome = .ok ()) (hw : p.warmupOutcome = .ok ()) :
    terminalCount (transcribe cd p infer o s).msgs = 1 ∧
    (transcribe cd p infer o s).msgs.dropLast.filter Msg.isTerminal = [] ∧
    ((transcribe cd p infer o s).msgs.getLast?.map Msg.isTerminal) =
      some true ∧
    List.Chain' (fun a b => a ≤ b)
      (transcribingPcts (transcribe cd p infer o s).msgs) ∧
    (∀ out, infer = .ok out → s.isLoading = false →
      transcribingPcts (transcribe cd p infer o s).msgs = [0, 100] ∧
      (transcribe cd p infer o s).msgs.getLast? =
        some (.complete (mkResult out o.language))) := by
  cases hL : s.isLoading with
  | true =>
    have hlm := loadModel_early cd (some (o.model.getD defaultWorkerModel))
      o.device p s hL
    have hmsgs : (transcribe cd p infer o s).msgs =
        [Msg.info ("Model is already loading..."), Msg.transcribing 0] ++
          transcribeFinish s.transcriber infer o := by
      simp [transcribe, transcribeStart, hlm]
    have hshape := finish_shape
      [Msg.info ("Model is already loading..."), Msg.transcribing 0]
      s.transcriber infer o (by rfl) (by rfl)
    rw [hmsgs]
    refine ⟨hshape.1, hshape.2.1, hshape.2.2.1, hshape.2.2.2.1, ?_⟩
    intro out hout hfalse
    simp at hfalse
  | false =>
    cases ht : s.transcriber with
    | some m =>
      have hlm := loadModel_cached cd (some (o.model.getD defaultWorkerModel))
        o.device p s m hL ht
      have hmsgs : (transcribe cd p infer o s).msgs =
          [Msg.ready ("Model already loaded"), Msg.transcribing 0] ++
            transcribeFinish (some m) infer o := by
        simp [transcribe, transcribeStart, hlm]
      have hshape := finish_shape
        [Msg.ready ("Model already loaded"), Msg.transcribing 0]
        (some m) infer o (by rfl) (by rfl)
      rw [hmsgs]
      refine ⟨hshape.1, hshape.2.1, hshape.2.2.1, hshape.2.2.2.1, ?_⟩
      intro out hout hiv
      exact hshape.2.2.2.2 m out rfl hout
    | none =>
      have hfresh := loadModel_fresh cd (some (o.model.getD defaultWorkerModel))
        o.device p s hL ht
      have hok := loadModelFinish_ok cd (some (o.model.getD defaultWorkerModel))
        o.device p ⟨none, true⟩ hp hw
      have hft : (Msg.loading ("Loading " ++ o.model.getD defaultWorkerModel ++
          " for " ++ (o.device.getD cd).toUpper ++ "...") ::
          ((loadModelFinish cd (some (o.model.getD defaultWorkerModel))
            o.device p ⟨none, true⟩).msgs ++ [Msg.transcribing 0])).filter
          Msg.isTerminal = [] := by
        simp [List.filter_append, hok.2.2.1, Msg.isTerminal]
      have hfp : transcribingPcts
          (Msg.loading ("Loading " ++ o.model.getD defaultWorkerModel ++
            " for " ++ (o.device.getD cd).toUpper ++ "...") ::
            ((loadModelFinish cd (some (o.model.getD defaultWorkerModel))
              o.device p ⟨none, true⟩).msgs ++ [Msg.transcribing 0])) = [0] := by
        rw [show (Msg.loading ("Loading " ++ o.model.getD defaultWorkerModel ++
            " for " ++ (o.device.getD cd).toUpper ++ "...") ::
            ((loadModelFinish cd (some (o.model.getD defaultWorkerModel))
              o.device p ⟨none, true⟩).msgs ++ [Msg.transcribing 0])) =
          [Msg.loading ("Loading " ++ o.model.getD defaultWorkerModel ++
            " for " ++ (o.device.getD cd).toUpper ++ "...")] ++
            ((loadModelFinish cd (some (o.model.getD defaultWorkerModel))
              o.device p ⟨none, true⟩).msgs ++ [Msg.transcribing 0]) from rfl]
        rw [pcts_append, pcts_append, hok.2.2.2]
        simp [transcribingPcts]
      have hmsgs : (transcribe cd p infer o s).msgs =
          (Msg.loading ("Loading " ++ o.model.getD defaultWorkerModel ++
            " for " ++ (o.device.getD cd).toUpper ++ "...") ::
            ((loadModelFinish cd (some (o.model.getD defaultWorkerModel))
              o.device p ⟨none, true⟩).msgs ++ [Msg.transcribing 0])) ++
            transcribeFinish (some (o.model.getD defaultWorkerModel)) infer o := by
        simp [transcribe, transcribeStart, hfresh, hok.2.1]
      have hshape := finish_shape
        (Msg.loading ("Loading " ++ o.model.getD defaultWorkerModel ++
          " for " ++ (o.device.getD cd).toUpper ++ "...") ::
          ((loadModelFinish cd (some (o.model.getD defaultWorkerModel))
            o.device p ⟨none, true⟩).msgs ++ [Msg.transcribing 0]))
        (some (o.model.getD defaultWorkerModel)) infer o hft hfp
      rw [hmsgs]
      refine ⟨hshape.1, hshape.2.1, hshape.2.2.1, hshape.2.2.2.1, ?_⟩
      intro out hout hiv
      exact hshape.2.2.2.2 (o.model.getD defaultWorkerModel) out rfl hout

/-- Witness for C4 on a successful load and inference from the empty
worker state. -/
theorem c4_witness :
    terminalCount (transcribe "wasm" pOk (.ok outSimple) defaultOptions
      state0).msgs = 1 ∧
    (transcribe "wasm" pOk (.ok outSimple) defaultOptions
      state0).msgs.dropLast.filter Msg.isTerminal = [] ∧
    ((transcribe "wasm" pOk (.ok outSimple) defaultOptions
      state0).msgs.getLast?.map Msg.isTerminal) = some true ∧
    List.Chain' (fun a b => a ≤ b)
      (transcribingPcts (transcribe "wasm" pOk (.ok outSimple) defaultOptions
        state0).msgs) ∧
    transcribingPcts (transcribe "wasm" pOk (.ok outSimple) defaultOptions
      state0).msgs = [0, 100] ∧
    (transcribe "wasm" pOk (.ok outSimple) defaultOptions
      state0).msgs.getLast? = some (.complete (mkResult outSimple none)) := by
  have h := c4_progress_order_amended "wasm" pOk (.ok outSimple)
    defaultOptions state0 rfl rfl
  exact ⟨h.1, h.2.1, h.2.2.1, h.2.2.2.1,
    (h.2.2.2.2 outSimple rfl rfl).1, (h.2.2.2.2 outSimple rfl rfl).2⟩

end Scribby
